import Mathlib

/-!
Shallow embedding of the LearnCPP repository (src/src/calculator.cpp,
src/src/LogBuffer.cpp, src/include/LogBuffer.h, src/src/main.cpp) and
proofs of the specification's testable properties.

Modelling conventions:
- C++ `int` is modelled as a mathematical `Int` together with the 32-bit
  two's-complement wraparound `wrap32` applied to every arithmetic result,
  matching the machine behaviour of the common implementations; the
  representable range is `Int32Repr`.
- C++ `double` arithmetic in `Calculator::Div` is modelled over `Rat`
  (exact arithmetic); the zero guard `if (b == 0)` and the returned
  sentinel `0` are exact in the source as well.
- `std::vector<int>` is modelled as `List Int`; constructors that in C++
  mutate or leave their source argument in some state are modelled as
  functions returning the pair (destination, source-after-construction).
- `main` is modelled as a pure computation of the full standard-output
  text and the exit status.
-/

/-- The 32-bit signed representable range of a C++ `int`:
`-2^31 ≤ x < 2^31`. -/
def Int32Repr (x : Int) : Prop := -(2 ^ 31) ≤ x ∧ x < 2 ^ 31

instance decidableInt32Repr (x : Int) : Decidable (Int32Repr x) := by
  unfold Int32Repr
  exact instDecidableAnd

/-- Two's-complement wraparound of an integer into the 32-bit signed
range, modelling what machine `int` arithmetic produces. -/
def wrap32 (n : Int) : Int := (n + 2 ^ 31) % 2 ^ 32 - 2 ^ 31

/-- On the representable range, wraparound is the identity. -/
theorem wrap32_eq_self {n : Int} (h : Int32Repr n) : wrap32 n = n := by
  unfold Int32Repr at h
  unfold wrap32
  omega

/-- Embedding of `class Calculator` (calculator.cpp).  The class declares
no data members at all, so the structure is fieldless. -/
structure Calculator where
  mk ::
deriving DecidableEq

/-- Embedding of `int Calculator::Add(int a, int b) { return a + b; }`
(calculator.cpp lines 6-9), with machine-`int` wraparound made explicit. -/
def Calculator.Add (a b : Int) : Int := wrap32 (a + b)

/-- Embedding of `int Calculator::Sub(int a, int b) { return a - b; }`
(calculator.cpp lines 11-14). -/
def Calculator.Sub (a b : Int) : Int := wrap32 (a - b)

/-- Embedding of `int Calculator::Mul(int a, int b) { return a * b; }`
(calculator.cpp lines 16-19). -/
def Calculator.Mul (a b : Int) : Int := wrap32 (a * b)

/-- Embedding of `double Calculator::Div(double a, double b)`
(calculator.cpp lines 21-28): `if (b == 0) return 0; return a / b;`,
with `double` values modelled exactly over `Rat`. -/
def Calculator.Div (a b : Rat) : Rat := if b = 0 then 0 else a / b

/-- `Add` as a member-function call: the receiver object is threaded
through explicitly so that any mutation of the object would be visible;
the body touches no member state. -/
def Calculator.runAdd (c : Calculator) (a b : Int) : Int × Calculator :=
  (Calculator.Add a b, c)

/-- `Sub` as a member-function call with the receiver threaded through. -/
def Calculator.runSub (c : Calculator) (a b : Int) : Int × Calculator :=
  (Calculator.Sub a b, c)

/-- `Mul` as a member-function call with the receiver threaded through. -/
def Calculator.runMul (c : Calculator) (a b : Int) : Int × Calculator :=
  (Calculator.Mul a b, c)

/-- `Div` as a member-function call with the receiver threaded through. -/
def Calculator.runDiv (c : Calculator) (a b : Rat) : Rat × Calculator :=
  (Calculator.Div a b, c)

/-- Embedding of `class LogBuffer` (include/LogBuffer.h lines 4-12):
a public `std::vector<int> data` and three constructors. -/
structure LogBuffer where
  data : List Int
deriving DecidableEq, Repr

/-- Embedding of the default constructor `LogBuffer::LogBuffer()`
(LogBuffer.cpp lines 5-8): the member `data` is default-initialized to
the empty vector; the body only prints a trace line. -/
def LogBuffer.defaultCtor : LogBuffer := ⟨[]⟩

/-- Embedding of the copy constructor
`LogBuffer::LogBuffer(const LogBuffer& other) : data(other.data)`
(LogBuffer.cpp lines 11-14).  Returns the pair
(destination, source after construction); the source is taken by
`const` reference and is left untouched, and the destination holds its
own copy of the contents. -/
def LogBuffer.copyCtor (other : LogBuffer) : LogBuffer × LogBuffer :=
  (⟨other.data⟩, other)

/-- Embedding of the move constructor
`LogBuffer::LogBuffer(LogBuffer&& other) noexcept : data(std::move(other.data))`
(LogBuffer.cpp lines 17-20).  Returns the pair
(destination, source after construction): the vector contents are
transferred to the destination and the moved-from vector is left empty,
the state `std::vector` move construction leaves behind. -/
def LogBuffer.moveCtor (other : LogBuffer) : LogBuffer × LogBuffer :=
  (⟨other.data⟩, ⟨[]⟩)

/-- Applying an arbitrary mutation to a buffer's `data` member (the
member is public, so client code may rewrite it freely). -/
def LogBuffer.modifyData (b : LogBuffer) (f : List Int → List Int) : LogBuffer :=
  ⟨f b.data⟩

/-- In a world of two buffers, mutate only the first one. -/
def modifyFst (w : LogBuffer × LogBuffer) (f : List Int → List Int) :
    LogBuffer × LogBuffer :=
  (w.1.modifyData f, w.2)

/-- In a world of two buffers, mutate only the second one. -/
def modifySnd (w : LogBuffer × LogBuffer) (f : List Int → List Int) :
    LogBuffer × LogBuffer :=
  (w.1, w.2.modifyData f)

/-- Modelled from the spec: the struct `Player` lives in the repository's
`include/Player.h`, which is not under src/; the spec describes it as
`Player{id, name, hp}` and main.cpp initializes it as
`{1, "Alice", 100}` and reads `p.id`, `p.name`, `p.hp`. -/
structure Player where
  id : Int
  name : String
  hp : Int
deriving DecidableEq, Repr

/-- The lambda `[](const Player& p) { return p.hp < 50; }` used by
`find_if` and `count_if` in main.cpp. -/
def isLowHp (p : Player) : Bool := p.hp < 50

/-- The lambda `[](const Player& p) { return p.hp <= 0; }` used by
`any_of` and `remove_if` in main.cpp. -/
def isDead (p : Player) : Bool := p.hp ≤ 0

/-- The lambda `[](const Player& p) { return p.hp > 0; }` used by
`all_of` in main.cpp. -/
def isAlive (p : Player) : Bool := p.hp > 0

/-- The comparator `[](const Player& a, const Player& b) { return a.hp > b.hp; }`
passed to `std::sort` in main.cpp. -/
def hpGt (a b : Player) : Bool := a.hp > b.hp

/-- Insert a player into a list already sorted by the `hpGt` comparator. -/
def insertByHp (p : Player) : List Player → List Player
  | [] => [p]
  | q :: qs => if hpGt p q then p :: q :: qs else q :: insertByHp p qs

/-- Model of `std::sort(players.begin(), players.end(), hpGt)`: a sort
with respect to the comparator.  The hp keys in `main` are pairwise
distinct, so every comparison sort, the unstable `std::sort` included,
produces this unique strictly-descending arrangement. -/
def sortByHpDesc : List Player → List Player
  | [] => []
  | p :: ps => insertByHp p (sortByHpDesc ps)

/-- Model of the erase-remove idiom
`players.erase(std::remove_if(players.begin(), players.end(), pred), players.end())`:
keep, in order, exactly the elements on which the predicate is false. -/
def eraseRemoveIf (pred : Player → Bool) (l : List Player) : List Player :=
  l.filter (fun p => ! pred p)

/-- The hardcoded initial vector of players in `main` (main.cpp lines 75-80). -/
def playersInit : List Player :=
  [⟨1, "Alice", 100⟩, ⟨2, "Bob", 40⟩, ⟨3, "Eve", 0⟩, ⟨4, "Mallory", 70⟩]

/-- One line of the player listings printed by `main`:
`std::cout << p.name << " (" << p.hp << ")\n"`. -/
def playerLine (p : Player) : String :=
  p.name ++ " (" ++ toString p.hp ++ ")\n"

/-- Embedding of `int main()` (main.cpp lines 73-133) as the full text it
writes to standard output.  The program reads no input; every value is
hardcoded.  Steps: find_if, count_if, any_of, all_of, sort descending by
hp, then the erase-remove idiom on dead players. -/
def mainOutput : String :=
  let players := playersInit
  let s1 :=
    match players.find? isLowHp with
    | some p => "Found low HP player: " ++ p.name ++ "\n"
    | none => "No low HP player\n"
  let lowCount := players.countP isLowHp
  let s2 := "Low HP count: " ++ toString lowCount ++ "\n"
  let s3 := if players.any isDead then "At least one player is dead\n" else ""
  let s4 := if players.all isAlive then "All players are alive\n" else ""
  let sorted := sortByHpDesc players
  let s5 := "\nSorted players:\n" ++ String.join (sorted.map playerLine)
  let remaining := eraseRemoveIf isDead sorted
  let s6 := "\nAfter removing dead players:\n" ++ String.join (remaining.map playerLine)
  s1 ++ s2 ++ s3 ++ s4 ++ s5 ++ s6

/-- The whole observable behaviour of `main`: the standard-output text
and the exit status (`return 0`). -/
def cppMain : String × Int := (mainOutput, 0)

/-- C1: for every input `a`, `Calculator::Div(a, 0)` returns the
sentinel `0`: the `if (b == 0)` guard takes the early-return branch
instead of signaling an error. -/
theorem div_zero_sentinel : ∀ a : Rat, Calculator.Div a 0 = 0 := by
  intro a
  unfold Calculator.Div
  simp

/-- C2: for every pair of inputs with a nonzero divisor,
`Calculator::Div(a, b)` returns the quotient `a / b`. -/
theorem div_correct (a b : Rat) (hb : b ≠ 0) : Calculator.Div a b = a / b := by
  unfold Calculator.Div
  simp [hb]

/-- Witness for C2 at the concrete call `Div(9, 3)` from the
commented-out Topic 5 demonstration. -/
theorem div_correct_witness : (3 : Rat) ≠ 0 ∧ Calculator.Div 9 3 = 9 / 3 :=
  ⟨by norm_num, div_correct 9 3 (by norm_num)⟩

/-- C3: copy-constructing a `LogBuffer` yields a destination whose data
equals the source's data, leaves the source unchanged, and the two
sequences are independent: mutating either buffer's `data` afterwards
leaves the other buffer's `data` at the original contents. -/
theorem logbuffer_copy_independent :
    ∀ (a : LogBuffer) (f g : List Int → List Int),
      (LogBuffer.copyCtor a).1.data = a.data ∧
      (LogBuffer.copyCtor a).2 = a ∧
      (modifyFst (LogBuffer.copyCtor a) f).2.data = a.data ∧
      (modifySnd (LogBuffer.copyCtor a) g).1.data = a.data := by
  intro a f g
  exact ⟨rfl, rfl, rfl, rfl⟩

/-- C4: move-constructing a `LogBuffer` transfers the source's original
contents to the destination and leaves the moved-from source holding a
valid (empty) sequence. -/
theorem logbuffer_move :
    ∀ a : LogBuffer,
      (LogBuffer.moveCtor a).1.data = a.data ∧
      (LogBuffer.moveCtor a).2.data = [] := by
  intro a
  exact ⟨rfl, rfl⟩

/-- C5 (counterexample): the claim "for all representable `a` and `b`,
`Add(a, b)` returns the sum" fails when the sum overflows: at
`a = b = 2147483647` (both representable), machine addition wraps to
`-2`, not `4294967294`. -/
theorem add_overflow_counterexample :
    Int32Repr 2147483647 ∧
    Calculator.Add 2147483647 2147483647 ≠ 2147483647 + 2147483647 := by
  constructor
  · decide
  · decide

/-- C5 (amended): for representable `a` and `b` whose sum is also
representable, `Calculator::Add(a, b)` returns the sum `a + b`. -/
theorem add_correct_in_range (a b : Int) (ha : Int32Repr a) (hb : Int32Repr b)
    (hab : Int32Repr (a + b)) : Calculator.Add a b = a + b :=
  wrap32_eq_self hab

/-- Witness for C5 at `Add(3, 3)`, the call in the commented-out Topic 5
demonstration. -/
theorem add_correct_in_range_witness :
    Int32Repr 3 ∧ Int32Repr (3 + 3) ∧ Calculator.Add 3 3 = 3 + 3 :=
  ⟨by decide, by decide, add_correct_in_range 3 3 (by decide) (by decide) (by decide)⟩

/-- C6: `Calculator::Add` is commutative for all machine integers, and
associative whenever the intermediate sums `a + b` and `b + c` are
representable. -/
theorem add_comm_assoc :
    (∀ a b : Int, Calculator.Add a b = Calculator.Add b a) ∧
    (∀ a b c : Int, Int32Repr (a + b) → Int32Repr (b + c) →
      Calculator.Add (Calculator.Add a b) c = Calculator.Add a (Calculator.Add b c)) := by
  constructor
  · intro a b
    unfold Calculator.Add
    rw [Int.add_comm]
  · intro a b c h1 h2
    unfold Calculator.Add
    rw [wrap32_eq_self h1, wrap32_eq_self h2, Int.add_assoc]

/-- Witness for C6 at the concrete integers 1, 2, 3. -/
theorem add_comm_assoc_witness :
    Calculator.Add 1 2 = Calculator.Add 2 1 ∧
    Int32Repr (1 + 2) ∧ Int32Repr (2 + 3) ∧
    Calculator.Add (Calculator.Add 1 2) 3 = Calculator.Add 1 (Calculator.Add 2 3) :=
  ⟨add_comm_assoc.1 1 2, by decide, by decide,
    add_comm_assoc.2 1 2 3 (by decide) (by decide)⟩

/-- C7 (counterexample): the claim "for all representable `a` and `b`,
`Sub` returns `a - b` and `Mul` returns `a * b`" fails when the product
overflows: at `a = b = 65536` (both representable), machine
multiplication wraps `2^32` to `0`. -/
theorem mul_overflow_counterexample :
    ¬ (∀ a b : Int, Int32Repr a → Int32Repr b →
        Calculator.Sub a b = a - b ∧ Calculator.Mul a b = a * b) := by
  intro h
  have h2 := (h 65536 65536 (by decide) (by decide)).2
  revert h2
  decide

/-- C7 (amended): for representable `a` and `b`, `Calculator::Sub(a, b)`
returns `a - b` whenever the difference is representable, and
`Calculator::Mul(a, b)` returns `a * b` whenever the product is
representable. -/
theorem sub_mul_correct_in_range (a b : Int) (ha : Int32Repr a) (hb : Int32Repr b) :
    (Int32Repr (a - b) → Calculator.Sub a b = a - b) ∧
    (Int32Repr (a * b) → Calculator.Mul a b = a * b) :=
  ⟨fun h => wrap32_eq_self h, fun h => wrap32_eq_self h⟩

/-- Witness for C7 at `Sub(9, 2)` and `Mul(6, 6)`, the calls in the
commented-out Topic 5 demonstration. -/
theorem sub_mul_correct_in_range_witness :
    Int32Repr 9 ∧ Int32Repr 2 ∧ Int32Repr (9 - 2) ∧ Int32Repr (9 * 2) ∧
    Calculator.Sub 9 2 = 9 - 2 ∧ Calculator.Mul 9 2 = 9 * 2 :=
  ⟨by decide, by decide, by decide, by decide,
    (sub_mul_correct_in_range 9 2 (by decide) (by decide)).1 (by decide),
    (sub_mul_correct_in_range 9 2 (by decide) (by decide)).2 (by decide)⟩

set_option maxRecDepth 8000 in
/-- C8: the demonstration entry point `main` takes no input, writes one
fixed hardcoded narration to standard output, and returns exit status 0.
The equation pins the entire observable behaviour to a constant, so the
output is the same on every run. -/
theorem main_fixed_output :
    cppMain =
      ("Found low HP player: Bob\n" ++
       "Low HP count: 2\n" ++
       "At least one player is dead\n" ++
       "\nSorted players:\n" ++
       "Alice (100)\nMallory (70)\nBob (40)\nEve (0)\n" ++
       "\nAfter removing dead players:\n" ++
       "Alice (100)\nMallory (70)\nBob (40)\n", 0) := by
  rfl

/-- C9: all four `Calculator` operations are pure and stateless: a call
on any receiver object returns the same result as the same call on any
other receiver, and every call returns its receiver unchanged.  The
class has no data members, so there is no state a call could read or
write. -/
theorem calculator_pure_stateless :
    ∀ (c c₂ : Calculator) (a b : Int) (x y : Rat),
      (Calculator.runAdd c a b).1 = (Calculator.runAdd c₂ a b).1 ∧
      (Calculator.runAdd c a b).2 = c ∧
      (Calculator.runSub c a b).1 = (Calculator.runSub c₂ a b).1 ∧
      (Calculator.runSub c a b).2 = c ∧
      (Calculator.runMul c a b).1 = (Calculator.runMul c₂ a b).1 ∧
      (Calculator.runMul c a b).2 = c ∧
      (Calculator.runDiv c x y).1 = (Calculator.runDiv c₂ x y).1 ∧
      (Calculator.runDiv c x y).2 = c := by
  intro c c₂ a b x y
  exact ⟨rfl, rfl, rfl, rfl, rfl, rfl, rfl, rfl⟩

/-- C10: a default-constructed `LogBuffer` has an empty `data` sequence. -/
theorem logbuffer_default_empty : LogBuffer.defaultCtor.data = [] := rfl
